import Mathlib

/-!
Shallow embedding of the aiohttp_admin CRUD backend
(`aiohttp_admin/backends/sa.py`, `aiohttp_admin/backends/grpc.py`,
`aiohttp_admin/contrib/admin.py`).

Handlers are `async` Python methods; we model each as a pure function from
its inputs (permission environment, table, database row set, request data,
RPC client outcome) to a triple: the handler's result (`Except` for raised
exceptions), the database row set after the handler, and the ordered trace
of externally visible events (permission check, connection acquisition,
query execution, RPC call).  SQL execution by the external driver is
modelled as list operations on the row set.  Helper modules that the
repository imports but that are not part of its three source files
(`..security.require`, `..utils.validate_payload`,
`.sa_utils.table_to_trafaret`, `.sa_utils.create_filter`) are modelled
from the specification, as marked in their doc comments.
-/

/-- A JSON-like value in a database cell, payload field or path segment. -/
inductive Value where
  | vint (n : Int)
  | vstr (s : String)
  | vbool (b : Bool)
  | vnull
deriving DecidableEq, Repr

/-- Exact column data-type classes.  The classes keyed by the two static
mapping dictionaries in sa.py get their own constructors; `other` stands
for every class absent from both dictionaries. -/
inductive ColType where
  | integer
  | text
  | float
  | date
  | boolean
  | json
  | other (clsName : String)
deriving DecidableEq, Repr

/-- One column of a table descriptor: name and data type. -/
structure Column where
  name : String
  dtype : ColType
deriving DecidableEq, Repr

/-- A table descriptor: ordered columns plus the names of the primary-key
columns (`table.primary_key`). -/
structure Table where
  columns : List Column
  pkCols : List String
deriving DecidableEq, Repr

/-- `table.primary_key.columns.values()[0].name` (sa.py line 46-47): the
name of the first primary-key column. -/
def Table.pk (t : Table) : String := t.pkCols.headD ""

/-- A row: an association list from column name to value. -/
abbrev Row := List (String × Value)

/-- The database row set of the resource's table. -/
abbrev DB := List Row

/-- Value bound to key `k` in a row (first binding wins). -/
def rowGet (r : Row) (k : String) : Option Value :=
  (r.find? (fun kv => kv.1 == k)).map (fun kv => kv.2)

/-- `UPDATE ... SET` semantics of `table.update().values(data)`: every
column mentioned in `data` is overwritten, other columns are kept. -/
def applyData (r : Row) (data : List (String × Value)) : Row :=
  r.map (fun kv =>
    match rowGet data kv.1 with
    | some v => (kv.1, v)
    | none => kv)

/-- The WHERE clause `self._pk == entity_id`: the row's primary-key column
holds exactly the given value. -/
def pkMatches (pk : String) (v : Value) (r : Row) : Bool :=
  rowGet r pk == some v

/-- `SELECT ... WHERE pk == v` followed by `.first()` / `fetchrow`. -/
def findByPk (db : DB) (pk : String) (v : Value) : Option Row :=
  db.find? (pkMatches pk v)

/-- The four permissions of `..security.Permissions`. -/
inductive Permission where
  | view
  | add
  | edit
  | delete
deriving DecidableEq, Repr

/-- Exceptions a handler can raise.  `objectNotFound` is
`..exceptions.ObjectNotFound`; `typeError` is Python's `TypeError` raised
by `dict(None)` when a fetched row is `None`; `rpcError` is an exception
from the RPC client that is not `GrpcError` and therefore propagates. -/
inductive AdminError where
  | authError
  | validationError
  | objectNotFound (msg : String)
  | typeError
  | rpcError (msg : String)
deriving DecidableEq, Repr

/-- JSON response bodies produced by the handlers. -/
inductive Body where
  | entity (r : Row)
  | entities (rs : List Row)
  | statusMsg (s : String)
  | statusError (s : String)
deriving DecidableEq, Repr

/-- A `json_response`: a body plus response headers. -/
structure Resp where
  body : Body
  headers : List (String × String)
deriving DecidableEq, Repr

/-- Externally visible events of a handler, in execution order. -/
inductive Event where
  | permCheck (p : Permission)
  | dbAcquire
  | dbQuery
  | rpcCall
deriving DecidableEq, Repr

/-- Result of a handler: outcome, database row set afterwards, event
trace. -/
abbrev HandlerOut := Except AdminError Resp × DB × List Event

/-- Modelled from the spec: `require` from `..security` (module not in
src).  Spec section 6: "a require(request, permission) check for one of
{view, add, edit, delete}; denial must short-circuit with an authorization
failure before any database access". The request's permission environment
is a function from permission to Bool. -/
def require (hasPerm : Permission → Bool) (p : Permission) :
    Except AdminError Unit :=
  if hasPerm p then Except.ok () else Except.error AdminError.authError

/-- Shared shape of every handler in sa.py: `await require(...)` runs
first; only if it does not raise does the body run, and every event of the
body comes after the permission-check event. -/
def withPerm (hasPerm : Permission → Bool) (p : Permission) (db : DB)
    (body : Unit → HandlerOut) : HandlerOut :=
  match require hasPerm p with
  | Except.error e => (Except.error e, db, [Event.permCheck p])
  | Except.ok _ =>
    let r := body ()
    (r.1, r.2.1, Event.permCheck p :: r.2.2)

/-- Modelled from the spec: `table_to_trafaret` from `.sa_utils` (module
not in src).  Spec sections 3 and 4.1: payload validators are derived from
the table descriptor's columns, and with `skip_pk` the schema "excludes
the primary key".  We model a validator as the list of admissible field
names. -/
def table_to_trafaret (t : Table) (primaryKey : String) (skipPk : Bool) :
    List String :=
  if skipPk then (t.columns.map Column.name).filter (fun n => n != primaryKey)
  else t.columns.map Column.name

/-- Modelled from the spec: `validate_payload` from `..utils` (module not
in src).  Spec section 6: "a schema-validation call that raises on
malformed input before any database access".  `none` stands for an
unparsable body; otherwise every payload key must be admitted by the
validator. -/
def validate_payload (raw : Option (List (String × Value)))
    (validator : List String) : Except AdminError (List (String × Value)) :=
  match raw with
  | none => Except.error AdminError.validationError
  | some data =>
    if data.all (fun kv => validator.contains kv.1) then Except.ok data
    else Except.error AdminError.validationError

/-- Resolved pagination and sort parameters (`calc_pagination`'s output,
sa.py lines 115, 216). -/
structure Paging where
  offset : Nat
  limit : Nat
  sortField : String
  sortAsc : Bool
deriving DecidableEq, Repr

/-- Filter operators of the query language: equality and the suffixed
range operators. -/
inductive FilterOp where
  | feq
  | fgt
  | flt
deriving DecidableEq, Repr

/-- Parsed query spec of a list request (`validate_query`'s output):
optional filter set plus paging. -/
structure QuerySpec where
  filters : Option (List (String × FilterOp × Value))
  paging : Paging
deriving DecidableEq, Repr

/-- Strict value order used by range predicates and ORDER BY. -/
def Value.lt : Value → Value → Bool
  | Value.vint a, Value.vint b => decide (a < b)
  | Value.vstr a, Value.vstr b => decide (a < b)
  | Value.vbool a, Value.vbool b => !a && b
  | _, _ => false

/-- One field predicate of a filter applied to one row. -/
def matchesPred (r : Row) (p : String × FilterOp × Value) : Bool :=
  match rowGet r p.1 with
  | some v =>
    match p.2.1 with
    | FilterOp.feq => v == p.2.2
    | FilterOp.fgt => Value.lt p.2.2 v
    | FilterOp.flt => Value.lt v p.2.2
  | none => false

/-- Modelled from the spec: `create_filter` from `.sa_utils` (module not
in src).  Spec section 4.2: field→value predicates (equality and suffixed
range operators) composed with logical AND; the driver-side execution of
the produced WHERE clause is modelled as filtering the row set. -/
def create_filter (db : DB) (filters : List (String × FilterOp × Value)) :
    DB :=
  db.filter (fun r => filters.all (matchesPred r))

/-- Non-strict comparison of sort keys (absent keys sort first). -/
def sortKeyLe (field : String) (a b : Row) : Bool :=
  match rowGet a field, rowGet b field with
  | some x, some y => Value.lt x y || x == y
  | some _, none => false
  | none, _ => true

/-- Ascending row order on the sort field. -/
def rowLeAsc (field : String) (a b : Row) : Prop :=
  sortKeyLe field a b = true

/-- Descending row order on the sort field. -/
def rowLeDesc (field : String) (a b : Row) : Prop :=
  sortKeyLe field b a = true

instance (field : String) (a b : Row) : Decidable (rowLeAsc field a b) :=
  inferInstanceAs (Decidable (sortKeyLe field a b = true))

instance (field : String) (a b : Row) : Decidable (rowLeDesc field a b) :=
  inferInstanceAs (Decidable (sortKeyLe field b a = true))

/-- `ORDER BY sort_dir(sort_field)` (a stable sort of the selection). -/
def sortRows (field : String) (asc : Bool) (rows : DB) : DB :=
  if asc then List.insertionSort (rowLeAsc field) rows
  else List.insertionSort (rowLeDesc field) rows

/-- `PGResource.list` (sa.py lines 111-139): view permission, filter or
select-all, count over the (possibly filtered) selection, then
offset/limit/sort over the same selection, `X-Total-Count` header. -/
def pg_list (hasPerm : Permission → Bool) (t : Table) (db : DB)
    (q : QuerySpec) : HandlerOut :=
  withPerm hasPerm Permission.view db (fun _ =>
    let query := match q.filters with
      | some fs => create_filter db fs
      | none => db
    let count := query.length
    let page := ((sortRows q.paging.sortField q.paging.sortAsc query).drop
      q.paging.offset).take q.paging.limit
    (Except.ok { body := Body.entities page,
                 headers := [("X-Total-Count", toString count)] },
     db, [Event.dbAcquire, Event.dbQuery, Event.dbQuery]))

/-- `PGResource.detail` (sa.py lines 141-154). -/
def pg_detail (hasPerm : Permission → Bool) (t : Table) (db : DB)
    (entityId : String) : HandlerOut :=
  withPerm hasPerm Permission.view db (fun _ =>
    match findByPk db t.pk (Value.vstr entityId) with
    | none =>
      (Except.error (AdminError.objectNotFound
         ("Entity with id: " ++ entityId ++ " not found")),
       db, [Event.dbAcquire, Event.dbQuery])
    | some r =>
      (Except.ok { body := Body.entity r, headers := [] },
       db, [Event.dbAcquire, Event.dbQuery]))

/-- The row produced by `INSERT ... VALUES (data) RETURNING *`: payload
values where given, the server-generated value `genPk` for an omitted
primary-key column, NULL for other omitted columns. -/
def insertedRow (t : Table) (data : List (String × Value)) (genPk : Value) :
    Row :=
  t.columns.map (fun c => (c.name,
    match rowGet data c.name with
    | some v => v
    | none => if c.name == t.pk then genPk else Value.vnull))

/-- `PGResource.create` (sa.py lines 156-168): add permission, payload
validation, INSERT RETURNING, commit. -/
def pg_create (hasPerm : Permission → Bool) (t : Table)
    (validator : List String) (db : DB)
    (raw : Option (List (String × Value))) (genPk : Value) : HandlerOut :=
  withPerm hasPerm Permission.add db (fun _ =>
    match validate_payload raw validator with
    | Except.error e => (Except.error e, db, [])
    | Except.ok data =>
      let row := insertedRow t data genPk
      (Except.ok { body := Body.entity row, headers := [] },
       db ++ [row], [Event.dbAcquire, Event.dbQuery, Event.dbQuery]))

/-- `PGResource.update` (sa.py lines 170-195): edit permission, payload
validation, SELECT to check existence (raising ObjectNotFound), UPDATE
RETURNING, commit. -/
def pg_update (hasPerm : Permission → Bool) (t : Table)
    (validator : List String) (db : DB) (entityId : String)
    (raw : Option (List (String × Value))) : HandlerOut :=
  withPerm hasPerm Permission.edit db (fun _ =>
    match validate_payload raw validator with
    | Except.error e => (Except.error e, db, [])
    | Except.ok data =>
      match findByPk db t.pk (Value.vstr entityId) with
      | none =>
        (Except.error (AdminError.objectNotFound
           ("Entity with id: " ++ entityId ++ " not found")),
         db, [Event.dbAcquire, Event.dbQuery])
      | some r0 =>
        let db2 := db.map (fun r =>
          if pkMatches t.pk (Value.vstr entityId) r then applyData r data
          else r)
        (Except.ok { body := Body.entity (applyData r0 data), headers := [] },
         db2, [Event.dbAcquire, Event.dbQuery, Event.dbQuery, Event.dbQuery]))

/-- `PGResource.delete` (sa.py lines 197-207): delete permission, DELETE
by primary key, commit, unconditional `{"status": "deleted"}`. -/
def pg_delete (hasPerm : Permission → Bool) (t : Table) (db : DB)
    (entityId : String) : HandlerOut :=
  withPerm hasPerm Permission.delete db (fun _ =>
    (Except.ok { body := Body.statusMsg "deleted", headers := [] },
     db.filter (fun r => !(pkMatches t.pk (Value.vstr entityId) r)),
     [Event.dbAcquire, Event.dbQuery, Event.dbQuery]))

/-- Decimal digit value of a character. -/
def digitVal (c : Char) : Option Nat :=
  if c.toNat ≥ 48 && c.toNat ≤ 57 then some (c.toNat - 48) else none

/-- A nonempty all-digit character sequence as a number. -/
def digitsToNat (cs : List Char) : Option Nat :=
  if cs.isEmpty then none
  else cs.foldl (fun acc c =>
    match acc, digitVal c with
    | some n, some d => some (n * 10 + d)
    | _, _ => none) (some 0)

/-- Python `int(text)`: an optional sign followed by at least one decimal
digit (surrounding-whitespace stripping elided); anything else raises
ValueError, modelled as `none`. -/
def parseInt (s : String) : Option Int :=
  match s.toList with
  | '-' :: cs => (digitsToNat cs).map (fun n => -(n : Int))
  | '+' :: cs => (digitsToNat cs).map (fun n => (n : Int))
  | cs => (digitsToNat cs).map (fun n => (n : Int))

/-- `int(entity_id)` guarded by `except ValueError: pass` (sa.py lines
242-245, 273-276, 298-301, 363-366): numeric text becomes an integer,
anything else is kept as the original text. -/
def coerceId (s : String) : Value :=
  match parseInt s with
  | some n => Value.vint n
  | none => Value.vstr s

/-- `str(...)` of an entity id as it appears in `ObjectNotFound`
messages of the asyncpg variant. -/
def idMsg : Value → String
  | Value.vint n => toString n
  | Value.vstr s => s
  | Value.vbool b => toString b
  | Value.vnull => "None"

/-- `{"id": rec[self.primary_key], **rec}` (sa.py line 234): prepends an
`id` key holding the primary-key value unless the row already has one. -/
def addIdKey (pk : String) (r : Row) : Row :=
  if (r.find? (fun kv => kv.1 == "id")).isSome then r
  else ("id", (rowGet r pk).getD Value.vnull) :: r

/-- `AsyncpgResource.list` (sa.py lines 211-237): as `PGResource.list`
but each returned row gains an `id` key. -/
def asyncpg_list (hasPerm : Permission → Bool) (t : Table) (db : DB)
    (q : QuerySpec) : HandlerOut :=
  withPerm hasPerm Permission.view db (fun _ =>
    let query := match q.filters with
      | some fs => create_filter db fs
      | none => db
    let count := query.length
    let page := ((sortRows q.paging.sortField q.paging.sortAsc query).drop
      q.paging.offset).take q.paging.limit
    (Except.ok { body := Body.entities (page.map (addIdKey t.pk)),
                 headers := [("X-Total-Count", toString count)] },
     db, [Event.dbAcquire, Event.dbQuery, Event.dbQuery]))

/-- `AsyncpgResource.detail` (sa.py lines 239-254): the path id is
coerced to an integer when possible before the lookup. -/
def asyncpg_detail (hasPerm : Permission → Bool) (t : Table) (db : DB)
    (entityId : String) : HandlerOut :=
  withPerm hasPerm Permission.view db (fun _ =>
    let eid := coerceId entityId
    match findByPk db t.pk eid with
    | none =>
      (Except.error (AdminError.objectNotFound (idMsg eid)),
       db, [Event.dbAcquire, Event.dbQuery])
    | some r =>
      (Except.ok { body := Body.entity r, headers := [] },
       db, [Event.dbAcquire, Event.dbQuery]))

/-- `AsyncpgResource.create` (sa.py lines 256-266): INSERT RETURNING with
driver autocommit, no explicit commit statement. -/
def asyncpg_create (hasPerm : Permission → Bool) (t : Table)
    (validator : List String) (db : DB)
    (raw : Option (List (String × Value))) (genPk : Value) : HandlerOut :=
  withPerm hasPerm Permission.add db (fun _ =>
    match validate_payload raw validator with
    | Except.error e => (Except.error e, db, [])
    | Except.ok data =>
      let row := insertedRow t data genPk
      (Except.ok { body := Body.entity row, headers := [] },
       db ++ [row], [Event.dbAcquire, Event.dbQuery]))

/-- `AsyncpgResource.update` (sa.py lines 268-293): validation, id
coercion, existence check raising ObjectNotFound, UPDATE RETURNING. -/
def asyncpg_update (hasPerm : Permission → Bool) (t : Table)
    (validator : List String) (db : DB) (entityId : String)
    (raw : Option (List (String × Value))) : HandlerOut :=
  withPerm hasPerm Permission.edit db (fun _ =>
    match validate_payload raw validator with
    | Except.error e => (Except.error e, db, [])
    | Except.ok data =>
      let eid := coerceId entityId
      match findByPk db t.pk eid with
      | none =>
        (Except.error (AdminError.objectNotFound (idMsg eid)),
         db, [Event.dbAcquire, Event.dbQuery])
      | some r0 =>
        let db2 := db.map (fun r =>
          if pkMatches t.pk eid r then applyData r data else r)
        (Except.ok { body := Body.entity (applyData r0 data), headers := [] },
         db2, [Event.dbAcquire, Event.dbQuery, Event.dbQuery]))

/-- `AsyncpgResource.delete` (sa.py lines 295-306): id coercion, DELETE by
primary key, unconditional `{"status": "deleted"}`. -/
def asyncpg_delete (hasPerm : Permission → Bool) (t : Table) (db : DB)
    (entityId : String) : HandlerOut :=
  withPerm hasPerm Permission.delete db (fun _ =>
    (Except.ok { body := Body.statusMsg "deleted", headers := [] },
     db.filter (fun r => !(pkMatches t.pk (coerceId entityId) r)),
     [Event.dbAcquire, Event.dbQuery]))

/-- `MySQLResource.create` (sa.py lines 310-325): INSERT, `lastrowid`,
re-SELECT by the new id, commit.  `dict(rec)` on a missing row would raise
TypeError. -/
def mysql_create (hasPerm : Permission → Bool) (t : Table)
    (validator : List String) (db : DB)
    (raw : Option (List (String × Value))) (genPk : Value) : HandlerOut :=
  withPerm hasPerm Permission.add db (fun _ =>
    match validate_payload raw validator with
    | Except.error e => (Except.error e, db, [])
    | Except.ok data =>
      let row := insertedRow t data genPk
      let db2 := db ++ [row]
      match findByPk db2 t.pk genPk with
      | none =>
        (Except.error AdminError.typeError, db2,
         [Event.dbAcquire, Event.dbQuery, Event.dbQuery, Event.dbQuery])
      | some r0 =>
        (Except.ok { body := Body.entity r0, headers := [] }, db2,
         [Event.dbAcquire, Event.dbQuery, Event.dbQuery, Event.dbQuery]))

/-- `MySQLResource.update` (sa.py lines 327-350): existence check raising
ObjectNotFound, UPDATE without RETURNING, commit, re-SELECT. -/
def mysql_update (hasPerm : Permission → Bool) (t : Table)
    (validator : List String) (db : DB) (entityId : String)
    (raw : Option (List (String × Value))) : HandlerOut :=
  withPerm hasPerm Permission.edit db (fun _ =>
    match validate_payload raw validator with
    | Except.error e => (Except.error e, db, [])
    | Except.ok data =>
      match findByPk db t.pk (Value.vstr entityId) with
      | none =>
        (Except.error (AdminError.objectNotFound
           ("Entity with id: " ++ entityId ++ " not found")),
         db, [Event.dbAcquire, Event.dbQuery])
      | some _ =>
        let db2 := db.map (fun r =>
          if pkMatches t.pk (Value.vstr entityId) r then applyData r data
          else r)
        match findByPk db2 t.pk (Value.vstr entityId) with
        | none =>
          (Except.error AdminError.typeError, db2,
           [Event.dbAcquire, Event.dbQuery, Event.dbQuery, Event.dbQuery])
        | some r0 =>
          (Except.ok { body := Body.entity r0, headers := [] }, db2,
           [Event.dbAcquire, Event.dbQuery, Event.dbQuery, Event.dbQuery]))

/-- Outcome of one call on the abstract RPC client: success, a raised
`GrpcError` (the only exception the handlers catch), or any other raised
exception. -/
inductive RpcOutcome (α : Type) where
  | ok (a : α)
  | grpcErr (msg : String)
  | otherErr (msg : String)
deriving DecidableEq, Repr

/-- `AsyncpgGrpcResource.update` (sa.py lines 358-376): validation, id
coercion, RPC `client.update` (GrpcError becomes a `{"status": {"error":
...}}` body before any database access), then a local SELECT whose missing
row makes `dict(rec)` raise TypeError — there is no ObjectNotFound
check. -/
def asyncpgGrpc_update (hasPerm : Permission → Bool) (t : Table)
    (validator : List String)
    (clientUpdate : Value → List (String × Value) → RpcOutcome Unit)
    (db : DB) (entityId : String)
    (raw : Option (List (String × Value))) : HandlerOut :=
  withPerm hasPerm Permission.edit db (fun _ =>
    match validate_payload raw validator with
    | Except.error e => (Except.error e, db, [])
    | Except.ok data =>
      let eid := coerceId entityId
      match clientUpdate eid data with
      | RpcOutcome.grpcErr m =>
        (Except.ok { body := Body.statusError m, headers := [] }, db,
         [Event.rpcCall])
      | RpcOutcome.otherErr m =>
        (Except.error (AdminError.rpcError m), db, [Event.rpcCall])
      | RpcOutcome.ok _ =>
        match findByPk db t.pk eid with
        | none =>
          (Except.error AdminError.typeError, db,
           [Event.rpcCall, Event.dbAcquire, Event.dbQuery])
        | some r0 =>
          (Except.ok { body := Body.entity r0, headers := [] }, db,
           [Event.rpcCall, Event.dbAcquire, Event.dbQuery]))

/-- `AsyncpgGrpcResource.create` (sa.py lines 378-390): validation, RPC
`client.create` returning the new id (GrpcError becomes a status-error
body), then a local SELECT by that id. -/
def asyncpgGrpc_create (hasPerm : Permission → Bool) (t : Table)
    (validator : List String)
    (clientCreate : List (String × Value) → RpcOutcome Value)
    (db : DB) (raw : Option (List (String × Value))) : HandlerOut :=
  withPerm hasPerm Permission.add db (fun _ =>
    match validate_payload raw validator with
    | Except.error e => (Except.error e, db, [])
    | Except.ok data =>
      match clientCreate data with
      | RpcOutcome.grpcErr m =>
        (Except.ok { body := Body.statusError m, headers := [] }, db,
         [Event.rpcCall])
      | RpcOutcome.otherErr m =>
        (Except.error (AdminError.rpcError m), db, [Event.rpcCall])
      | RpcOutcome.ok newId =>
        match findByPk db t.pk newId with
        | none =>
          (Except.error AdminError.typeError, db,
           [Event.rpcCall, Event.dbAcquire, Event.dbQuery])
        | some r0 =>
          (Except.ok { body := Body.entity r0, headers := [] }, db,
           [Event.rpcCall, Event.dbAcquire, Event.dbQuery]))

/-- `AsyncpgGrpcResource.delete` (sa.py lines 392-399): RPC
`client.delete` with the path id passed as raw text (no int coercion
here), GrpcError becomes a status-error body, no database access at
all. -/
def asyncpgGrpc_delete (hasPerm : Permission → Bool)
    (clientDelete : Value → RpcOutcome Unit) (db : DB)
    (entityId : String) : HandlerOut :=
  withPerm hasPerm Permission.delete db (fun _ =>
    match clientDelete (Value.vstr entityId) with
    | RpcOutcome.grpcErr m =>
      (Except.ok { body := Body.statusError m, headers := [] }, db,
       [Event.rpcCall])
    | RpcOutcome.otherErr m =>
      (Except.error (AdminError.rpcError m), db, [Event.rpcCall])
    | RpcOutcome.ok _ =>
      (Except.ok { body := Body.statusMsg "deleted", headers := [] }, db,
       [Event.rpcCall]))

/-- `PGResource.__init__` (sa.py lines 42-56): primary key taken from the
table descriptor, create and update validators built by the same
`table_to_trafaret` call with the same arguments. -/
structure PGResourceModel where
  table : Table
  primaryKey : String
  createValidator : List String
  updateValidator : List String
deriving DecidableEq, Repr

def mkPGResource (t : Table) (skipPk : Bool) : PGResourceModel :=
  { table := t
    primaryKey := t.pk
    createValidator := table_to_trafaret t t.pk skipPk
    updateValidator := table_to_trafaret t t.pk skipPk }

/-- Modelled from the spec: the `ReactComponent` string constants of
`..contrib.constants` (module not in src).  Only their distinctness
matters; `TEXT_FIELD` and `TEXT_INPUT` are the spec's "plain text"
fallbacks. -/
def TEXT_FIELD : String := "TextField"

def NUMBER_FIELD : String := "NumberField"

def DATE_FIELD : String := "DateField"

def BOOLEAN_FIELD : String := "BooleanField"

def JSON_FIELD : String := "JsonField"

def TEXT_INPUT : String := "TextInput"

def DATE_INPUT : String := "DateInput"

def NULLABLE_BOOLEAN_INPUT : String := "NullableBooleanInput"

def JSON_INPUT : String := "JsonInput"

/-- The `FIELD_TYPES` dictionary (sa.py lines 22-29), keyed by the exact
data-type class; `none` for classes without an entry. -/
def FIELD_TYPES : ColType → Option String
  | ColType.integer => some TEXT_FIELD
  | ColType.text => some TEXT_FIELD
  | ColType.float => some NUMBER_FIELD
  | ColType.date => some DATE_FIELD
  | ColType.boolean => some BOOLEAN_FIELD
  | ColType.json => some JSON_FIELD
  | ColType.other _ => none

/-- The `INPUT_TYPES` dictionary (sa.py lines 31-38). -/
def INPUT_TYPES : ColType → Option String
  | ColType.integer => some TEXT_INPUT
  | ColType.text => some TEXT_INPUT
  | ColType.float => some TEXT_INPUT
  | ColType.date => some DATE_INPUT
  | ColType.boolean => some NULLABLE_BOOLEAN_INPUT
  | ColType.json => some JSON_INPUT
  | ColType.other _ => none

/-- The `fields` argument of `get_type_of_fields`: Python `None`/empty,
the string `"*"`, or a list of field names. -/
inductive FieldsArg where
  | noneF
  | star
  | names (l : List String)
deriving DecidableEq, Repr

/-- `PGResource.get_type_of_fields` (sa.py lines 66-91): empty `fields`
falls back to the primary-key columns; `"*"` selects all columns;
otherwise columns whose name is listed; each selected column is mapped
through `FIELD_TYPES` with the plain-text fallback. -/
def get_type_of_fields (fields : FieldsArg) (t : Table) :
    List (String × String) :=
  let fields2 := match fields with
    | FieldsArg.noneF => FieldsArg.names t.pkCols
    | f => f
  let actual := match fields2 with
    | FieldsArg.star => t.columns
    | FieldsArg.names l => t.columns.filter (fun c => l.contains c.name)
    | FieldsArg.noneF => t.columns.filter (fun c => t.pkCols.contains c.name)
  actual.map (fun c => (c.name, (FIELD_TYPES c.dtype).getD TEXT_FIELD))

/-- One element of `get_type_for_inputs`' result (sa.py lines 101-109). -/
structure InputDescriptor where
  type : String
  name : String
  isPrimaryKey : Bool
deriving DecidableEq, Repr

/-- `PGResource.get_type_for_inputs` (sa.py lines 93-109): every column
mapped through `INPUT_TYPES` with the plain-text fallback, flagged as
primary key exactly when its name is in `table.primary_key`. -/
def get_type_for_inputs (t : Table) : List InputDescriptor :=
  t.columns.map (fun c =>
    { type := (INPUT_TYPES c.dtype).getD TEXT_INPUT,
      name := c.name,
      isPrimaryKey := t.pkCols.contains c.name })

/-- One registered endpoint of the Schema registry (admin.py).  Modelled
from the spec for the parts outside src: `endpoint.to_dict()` (the
`ModelAdmin` class is not in src) yields a descriptor carrying at least a
`name` key, here `name`; `endpoint.fields` and `endpoint.Meta.table` feed
`get_type_of_fields`. -/
structure Endpoint where
  name : String
  fields : FieldsArg
  table : Table
deriving DecidableEq, Repr

/-- The serialized descriptor of one endpoint inside `to_json`'s output:
`endpoint.to_dict()` plus the resolved `fields` mapping. -/
structure EndpointData where
  name : String
  fieldTypes : List (String × String)
deriving DecidableEq, Repr

def endpointToData (e : Endpoint) : EndpointData :=
  { name := e.name, fieldTypes := get_type_of_fields e.fields e.table }

/-- `Schema` (admin.py lines 6-21): a title plus endpoints accumulated in
registration order. -/
structure Schema where
  title : String
  endpoints : List Endpoint
deriving DecidableEq, Repr

/-- `Schema.register` (admin.py lines 16-21): appends the endpoint. -/
def Schema.register (s : Schema) (e : Endpoint) : Schema :=
  { s with endpoints := s.endpoints ++ [e] }

/-- The JSON document produced by `Schema.to_json`. -/
structure JsonDoc where
  title : String
  endpoints : List EndpointData
deriving DecidableEq, Repr

/-- Order on serialized endpoint descriptors: Python's
`sorted(endpoints, key=lambda x: x['name'])`. -/
def edLe (a b : EndpointData) : Prop := a.name ≤ b.name

instance (a b : EndpointData) : Decidable (edLe a b) :=
  inferInstanceAs (Decidable (a.name ≤ b.name))

instance : IsTotal EndpointData edLe :=
  ⟨fun a b => le_total a.name b.name⟩

instance : IsTrans EndpointData edLe :=
  ⟨fun _ _ _ h1 h2 => le_trans h1 h2⟩

/-- `Schema.to_json` (admin.py lines 23-45): each endpoint's descriptor
with its resolved field-type mapping, sorted (stably) by name, under the
schema's title. -/
def Schema.to_json (s : Schema) : JsonDoc :=
  { title := s.title,
    endpoints := List.insertionSort edLe (s.endpoints.map endpointToData) }

/-- Does a handler outcome consist of a raised `ObjectNotFound`? -/
def isNotFoundResult : Except AdminError Resp → Bool
  | Except.error (AdminError.objectNotFound _) => true
  | _ => false

/-- The selection a list request works on: the filtered rows if a filter
is present, else all rows. -/
def selectedRows (db : DB)
    (filters : Option (List (String × FilterOp × Value))) : DB :=
  match filters with
  | some fs => create_filter db fs
  | none => db

/-- The `X-Total-Count` header value of a handler outcome, when any. -/
def totalCountOf (out : HandlerOut) : Option String :=
  match out.1 with
  | Except.ok r =>
    (r.headers.find? (fun kv => kv.1 == "X-Total-Count")).map (fun kv => kv.2)
  | Except.error _ => none

/-- A concrete table used to witness the theorems: integer primary key,
a text column, and a column of a type absent from both mapping
dictionaries. -/
def demoTable : Table :=
  { columns := [{ name := "id", dtype := ColType.integer },
                { name := "name", dtype := ColType.text },
                { name := "blob", dtype := ColType.other "LargeBinary" }],
    pkCols := ["id"] }

/-- A concrete unfiltered query spec. -/
def demoQ : QuerySpec :=
  { filters := none,
    paging := { offset := 0, limit := 10, sortField := "id", sortAsc := true } }

/-- Permission environment granting everything. -/
def allowAll : Permission → Bool := fun _ => true

/-- Permission environment denying everything. -/
def denyAll : Permission → Bool := fun _ => false

theorem withPerm_denied {hasPerm : Permission → Bool} {p : Permission}
    {db : DB} {body : Unit → HandlerOut} (h : hasPerm p = false) :
    withPerm hasPerm p db body
      = (Except.error AdminError.authError, db, [Event.permCheck p]) := by
  simp [withPerm, require, h]

theorem withPerm_trace_head (hasPerm : Permission → Bool) (p : Permission)
    (db : DB) (body : Unit → HandlerOut) :
    ((withPerm hasPerm p db body).2.2).head? = some (Event.permCheck p) := by
  unfold withPerm require
  cases h : hasPerm p <;> simp

theorem filter_id_of_find?_none {p : Row → Bool} {db : DB}
    (h : db.find? p = none) : db.filter (fun r => !(p r)) = db := by
  apply List.filter_eq_self.mpr
  intro a ha
  simp [List.find?_eq_none.mp h a ha]

/-- C10: for every table and skip_pk setting the create validator and the
update validator of `PGResource.__init__` are the very same value (both
are `table_to_trafaret(table, primary_key, skip_pk)`), hence a payload is
accepted by one exactly when it is accepted by the other. -/
theorem C10_validators_identical (t : Table) (skipPk : Bool)
    (raw : Option (List (String × Value))) :
    (mkPGResource t skipPk).createValidator
        = (mkPGResource t skipPk).updateValidator ∧
    validate_payload raw (mkPGResource t skipPk).createValidator
        = validate_payload raw (mkPGResource t skipPk).updateValidator :=
  ⟨rfl, rfl⟩

/-- C8: a column whose data type is in neither static dictionary is mapped
to the plain-text display field type by `get_type_of_fields` and to the
plain-text input type by `get_type_for_inputs`, and every input
descriptor's `isPrimaryKey` flag holds exactly when the column's name is
among the table's primary-key columns. -/
theorem C8_fallback_and_pk_flag (t : Table) (c : Column)
    (d : InputDescriptor) (hc : c ∈ t.columns)
    (hd : d ∈ get_type_for_inputs t)
    (hf : FIELD_TYPES c.dtype = none) (hi : INPUT_TYPES c.dtype = none) :
    (c.name, TEXT_FIELD) ∈ get_type_of_fields FieldsArg.star t ∧
    ({ type := TEXT_INPUT, name := c.name,
       isPrimaryKey := t.pkCols.contains c.name } : InputDescriptor)
      ∈ get_type_for_inputs t ∧
    d.isPrimaryKey = t.pkCols.contains d.name := by
  refine ⟨?_, ?_, ?_⟩
  · exact List.mem_map.mpr ⟨c, hc, by simp [hf]⟩
  · exact List.mem_map.mpr ⟨c, hc, by simp [get_type_for_inputs, hi]⟩
  · rcases List.mem_map.mp hd with ⟨c', _, rfl⟩
    rfl

theorem C8_witness :
    (({ name := "blob", dtype := ColType.other "LargeBinary" } : Column)
        ∈ demoTable.columns) ∧
    (({ type := TEXT_INPUT, name := "blob", isPrimaryKey := false }
        : InputDescriptor) ∈ get_type_for_inputs demoTable) ∧
    FIELD_TYPES (ColType.other "LargeBinary") = none ∧
    INPUT_TYPES (ColType.other "LargeBinary") = none ∧
    (("blob", TEXT_FIELD) ∈ get_type_of_fields FieldsArg.star demoTable ∧
     ({ type := TEXT_INPUT, name := "blob",
        isPrimaryKey := demoTable.pkCols.contains "blob" } : InputDescriptor)
       ∈ get_type_for_inputs demoTable ∧
     ({ type := TEXT_INPUT, name := "blob", isPrimaryKey := false }
        : InputDescriptor).isPrimaryKey
       = demoTable.pkCols.contains
           ({ type := TEXT_INPUT, name := "blob", isPrimaryKey := false }
              : InputDescriptor).name) :=
  ⟨by decide, by decide, rfl, rfl,
   C8_fallback_and_pk_flag demoTable
     { name := "blob", dtype := ColType.other "LargeBinary" }
     { type := TEXT_INPUT, name := "blob", isPrimaryKey := false }
     (by decide) (by decide) rfl rfl⟩

/-- C5: the SQL-backed delete handlers acknowledge with
`{"status": "deleted"}` no matter whether a matching row exists, never
raising a not-found error, and on a row set without a matching row the
deletion leaves the row set unchanged. -/
theorem C5_delete_idempotent (hp : Permission → Bool) (t : Table)
    (db db0 : DB) (entityId : String)
    (h : hp Permission.delete = true)
    (habs1 : findByPk db0 t.pk (Value.vstr entityId) = none)
    (habs2 : findByPk db0 t.pk (coerceId entityId) = none) :
    (pg_delete hp t db entityId).1
        = Except.ok { body := Body.statusMsg "deleted", headers := [] } ∧
    (asyncpg_delete hp t db entityId).1
        = Except.ok { body := Body.statusMsg "deleted", headers := [] } ∧
    (pg_delete hp t db0 entityId).2.1 = db0 ∧
    (asyncpg_delete hp t db0 entityId).2.1 = db0 := by
  refine ⟨?_, ?_, ?_, ?_⟩
  · simp [pg_delete, withPerm, require, h]
  · simp [asyncpg_delete, withPerm, require, h]
  · simp [pg_delete, withPerm, require, h]
    intro a ha
    simpa using List.find?_eq_none.mp habs1 a ha
  · simp [asyncpg_delete, withPerm, require, h]
    intro a ha
    simpa using List.find?_eq_none.mp habs2 a ha

theorem C5_witness :
    allowAll Permission.delete = true ∧
    findByPk [[("id", Value.vint 2)]] demoTable.pk (Value.vstr "1") = none ∧
    findByPk [[("id", Value.vint 2)]] demoTable.pk (coerceId "1") = none ∧
    ((pg_delete allowAll demoTable [[("id", Value.vint 2)]] "1").1
        = Except.ok { body := Body.statusMsg "deleted", headers := [] } ∧
     (asyncpg_delete allowAll demoTable [[("id", Value.vint 2)]] "1").1
        = Except.ok { body := Body.statusMsg "deleted", headers := [] } ∧
     (pg_delete allowAll demoTable [[("id", Value.vint 2)]] "1").2.1
        = [[("id", Value.vint 2)]] ∧
     (asyncpg_delete allowAll demoTable [[("id", Value.vint 2)]] "1").2.1
        = [[("id", Value.vint 2)]]) :=
  ⟨rfl, by decide, by decide,
   C5_delete_idempotent allowAll demoTable _ _ "1" rfl (by decide) (by decide)⟩

/-- C1 counterexample: on the RPC-delegating variant, an update whose
path id matches no row does not fail with ObjectNotFound — after a
successful RPC the local SELECT yields no row and `dict(rec)` raises
TypeError instead. -/
theorem C1_counterexample :
    isNotFoundResult (asyncpgGrpc_update allowAll demoTable
        (table_to_trafaret demoTable demoTable.pk true)
        (fun _ _ => RpcOutcome.ok ()) [] "1" (some [])).1 = false ∧
    (asyncpgGrpc_update allowAll demoTable
        (table_to_trafaret demoTable demoTable.pk true)
        (fun _ _ => RpcOutcome.ok ()) [] "1" (some [])).1
      = Except.error AdminError.typeError := by
  exact ⟨rfl, rfl⟩

/-- C1 (amended): for PGResource, AsyncpgResource and MySQLResource an
update whose path id matches no row fails with ObjectNotFound and leaves
the row set unchanged; AsyncpgGrpcResource.update also leaves the row set
unchanged but never raises ObjectNotFound — after a successful RPC it
fails with a TypeError when building the response from the missing
row. -/
theorem C1_update_missing_id (hp : Permission → Bool) (t : Table)
    (validator : List String) (db : DB) (entityId : String)
    (raw : Option (List (String × Value))) (data : List (String × Value))
    (cu : Value → List (String × Value) → RpcOutcome Unit)
    (hperm : hp Permission.edit = true)
    (hval : validate_payload raw validator = Except.ok data)
    (hpg : findByPk db t.pk (Value.vstr entityId) = none)
    (hco : findByPk db t.pk (coerceId entityId) = none)
    (hrpc : cu (coerceId entityId) data = RpcOutcome.ok ()) :
    pg_update hp t validator db entityId raw
      = (Except.error (AdminError.objectNotFound
          ("Entity with id: " ++ entityId ++ " not found")), db,
         [Event.permCheck Permission.edit, Event.dbAcquire, Event.dbQuery]) ∧
    asyncpg_update hp t validator db entityId raw
      = (Except.error (AdminError.objectNotFound (idMsg (coerceId entityId))),
         db,
         [Event.permCheck Permission.edit, Event.dbAcquire, Event.dbQuery]) ∧
    mysql_update hp t validator db entityId raw
      = (Except.error (AdminError.objectNotFound
          ("Entity with id: " ++ entityId ++ " not found")), db,
         [Event.permCheck Permission.edit, Event.dbAcquire, Event.dbQuery]) ∧
    asyncpgGrpc_update hp t validator cu db entityId raw
      = (Except.error AdminError.typeError, db,
         [Event.permCheck Permission.edit, Event.rpcCall, Event.dbAcquire,
          Event.dbQuery]) := by
  refine ⟨?_, ?_, ?_, ?_⟩
  · simp [pg_update, withPerm, require, hperm, hval, hpg]
  · simp [asyncpg_update, withPerm, require, hperm, hval, hco]
  · simp [mysql_update, withPerm, require, hperm, hval, hpg]
  · simp [asyncpgGrpc_update, withPerm, require, hperm, hval, hrpc, hco]

theorem C1_witness :
    allowAll Permission.edit = true ∧
    validate_payload (some [("name", Value.vstr "B")]) ["name", "blob"]
      = Except.ok [("name", Value.vstr "B")] ∧
    findByPk [] demoTable.pk (Value.vstr "7") = none ∧
    findByPk [] demoTable.pk (coerceId "7") = none ∧
    (fun _ _ => RpcOutcome.ok ()) (coerceId "7") [("name", Value.vstr "B")]
      = RpcOutcome.ok () ∧
    pg_update allowAll demoTable ["name", "blob"] [] "7"
        (some [("name", Value.vstr "B")])
      = (Except.error (AdminError.objectNotFound
          ("Entity with id: " ++ "7" ++ " not found")), [],
         [Event.permCheck Permission.edit, Event.dbAcquire, Event.dbQuery]) :=
  ⟨rfl, rfl, rfl, rfl, rfl,
   (C1_update_missing_id allowAll demoTable ["name", "blob"] [] "7"
     (some [("name", Value.vstr "B")]) [("name", Value.vstr "B")]
     (fun _ _ => RpcOutcome.ok ()) rfl rfl rfl rfl rfl).1⟩

/-- C2: on the RPC-delegating resource a raised GrpcError on
create/update/delete is recovered into a `{"status": {"error": msg}}`
JSON body with the row set unchanged, and for update no database
connection or query happens when the RPC fails (the trace after the
permission check is only the RPC call); any other RPC exception
propagates instead of being recovered. -/
theorem C2_grpc_error_recovered (hp : Permission → Bool) (t : Table)
    (validator : List String) (db : DB) (entityId : String)
    (raw : Option (List (String × Value))) (data : List (String × Value))
    (m : String)
    (hpe : hp Permission.edit = true) (hpa : hp Permission.add = true)
    (hpd : hp Permission.delete = true)
    (hval : validate_payload raw validator = Except.ok data) :
    asyncpgGrpc_update hp t validator (fun _ _ => RpcOutcome.grpcErr m)
        db entityId raw
      = (Except.ok { body := Body.statusError m, headers := [] }, db,
         [Event.permCheck Permission.edit, Event.rpcCall]) ∧
    asyncpgGrpc_create hp t validator (fun _ => RpcOutcome.grpcErr m) db raw
      = (Except.ok { body := Body.statusError m, headers := [] }, db,
         [Event.permCheck Permission.add, Event.rpcCall]) ∧
    asyncpgGrpc_delete hp (fun _ => RpcOutcome.grpcErr m) db entityId
      = (Except.ok { body := Body.statusError m, headers := [] }, db,
         [Event.permCheck Permission.delete, Event.rpcCall]) ∧
    asyncpgGrpc_update hp t validator (fun _ _ => RpcOutcome.otherErr m)
        db entityId raw
      = (Except.error (AdminError.rpcError m), db,
         [Event.permCheck Permission.edit, Event.rpcCall]) ∧
    asyncpgGrpc_create hp t validator (fun _ => RpcOutcome.otherErr m) db raw
      = (Except.error (AdminError.rpcError m), db,
         [Event.permCheck Permission.add, Event.rpcCall]) ∧
    asyncpgGrpc_delete hp (fun _ => RpcOutcome.otherErr m) db entityId
      = (Except.error (AdminError.rpcError m), db,
         [Event.permCheck Permission.delete, Event.rpcCall]) := by
  refine ⟨?_, ?_, ?_, ?_, ?_, ?_⟩ <;>
    simp [asyncpgGrpc_update, asyncpgGrpc_create, asyncpgGrpc_delete,
      withPerm, require, hpe, hpa, hpd, hval]

theorem C2_witness :
    allowAll Permission.edit = true ∧
    allowAll Permission.add = true ∧
    allowAll Permission.delete = true ∧
    validate_payload (some []) ["name", "blob"] = Except.ok [] ∧
    asyncpgGrpc_update allowAll demoTable ["name", "blob"]
        (fun _ _ => RpcOutcome.grpcErr "boom") [[("id", Value.vint 1)]] "1"
        (some [])
      = (Except.ok { body := Body.statusError "boom", headers := [] },
         [[("id", Value.vint 1)]],
         [Event.permCheck Permission.edit, Event.rpcCall]) :=
  ⟨rfl, rfl, rfl, rfl,
   (C2_grpc_error_recovered allowAll demoTable ["name", "blob"]
     [[("id", Value.vint 1)]] "1" (some []) [] "boom"
     rfl rfl rfl rfl).1⟩


/-- The page a list request returns: the (possibly filtered) selection
with sort, offset and limit applied. -/
def listPage (db : DB) (q : QuerySpec) : DB :=
  ((sortRows q.paging.sortField q.paging.sortAsc
    (selectedRows db q.filters)).drop q.paging.offset).take q.paging.limit

/-- The `X-Total-Count` header of a list response over `db`. -/
def countHeader (db : DB) (q : QuerySpec) : List (String × String) :=
  [("X-Total-Count", toString (selectedRows db q.filters).length)]

/-- C4: both list handlers answer with an `X-Total-Count` header equal to
the size of the (possibly filtered) selection — independent of the
offset/limit paging applied — and the returned rows are the filtered
selection with sort, offset and limit applied (plus, for the asyncpg
variant, the added `id` key). -/
theorem C4_list_total_count (hp : Permission → Bool) (t : Table) (db : DB)
    (q : QuerySpec) (p1 p2 : Paging)
    (h : hp Permission.view = true) :
    pg_list hp t db q
      = (Except.ok { body := Body.entities (listPage db q),
                     headers := countHeader db q },
         db, [Event.permCheck Permission.view, Event.dbAcquire,
              Event.dbQuery, Event.dbQuery]) ∧
    asyncpg_list hp t db q
      = (Except.ok { body := Body.entities ((listPage db q).map
                       (addIdKey t.pk)),
                     headers := countHeader db q },
         db, [Event.permCheck Permission.view, Event.dbAcquire,
              Event.dbQuery, Event.dbQuery]) ∧
    totalCountOf (pg_list hp t db { filters := q.filters, paging := p1 })
      = some (toString (selectedRows db q.filters).length) ∧
    totalCountOf (pg_list hp t db { filters := q.filters, paging := p1 })
      = totalCountOf (pg_list hp t db { filters := q.filters, paging := p2 }) ∧
    totalCountOf (asyncpg_list hp t db { filters := q.filters, paging := p1 })
      = totalCountOf
          (asyncpg_list hp t db { filters := q.filters, paging := p2 }) := by
  have keyPG : ∀ (q' : QuerySpec), pg_list hp t db q'
      = (Except.ok { body := Body.entities (listPage db q'),
                     headers := countHeader db q' },
         db, [Event.permCheck Permission.view, Event.dbAcquire,
              Event.dbQuery, Event.dbQuery]) := by
    intro q'
    cases hf : q'.filters <;>
      simp [pg_list, withPerm, require, h, selectedRows, listPage,
        countHeader, hf]
  have keyAPG : ∀ (q' : QuerySpec), asyncpg_list hp t db q'
      = (Except.ok { body := Body.entities ((listPage db q').map
                       (addIdKey t.pk)),
                     headers := countHeader db q' },
         db, [Event.permCheck Permission.view, Event.dbAcquire,
              Event.dbQuery, Event.dbQuery]) := by
    intro q'
    cases hf : q'.filters <;>
      simp [asyncpg_list, withPerm, require, h, selectedRows, listPage,
        countHeader, hf]
  refine ⟨keyPG q, keyAPG q, ?_, ?_, ?_⟩
  · simp [keyPG, totalCountOf, countHeader, selectedRows]
  · simp [keyPG, totalCountOf, countHeader, selectedRows]
  · simp [keyAPG, totalCountOf, countHeader, selectedRows]

theorem C4_witness :
    allowAll Permission.view = true ∧
    pg_list allowAll demoTable [[("id", Value.vint 1)]] demoQ
      = (Except.ok { body := Body.entities
                       (listPage [[("id", Value.vint 1)]] demoQ),
                     headers := countHeader [[("id", Value.vint 1)]] demoQ },
         [[("id", Value.vint 1)]],
         [Event.permCheck Permission.view, Event.dbAcquire,
          Event.dbQuery, Event.dbQuery]) :=
  ⟨rfl, (C4_list_total_count allowAll demoTable [[("id", Value.vint 1)]]
    demoQ demoQ.paging demoQ.paging rfl).1⟩

/-- C6 counterexample: `AsyncpgGrpcResource.delete` passes the
path-supplied id to the RPC client as raw text without the text-to-integer
conversion: with path id "5" a client that distinguishes the integer 5
from the text "5" observes the text, although the conversion of "5"
would give the integer 5. -/
theorem C6_counterexample :
    (asyncpgGrpc_delete allowAll
        (fun v => if v == Value.vint 5 then RpcOutcome.ok ()
                  else RpcOutcome.grpcErr "text id") [] "5").1
      = Except.ok { body := Body.statusError "text id", headers := [] } ∧
    coerceId "5" = Value.vint 5 :=
  ⟨rfl, rfl⟩

/-- C6 (amended): in AsyncpgResource, detail, update and delete all use
the path id only through the int-coercion with text fallback (which never
raises), and AsyncpgGrpcResource.update passes the coerced id to the RPC
client; but AsyncpgGrpcResource.delete, cited by the claim, passes the
path id as raw text without conversion. -/
theorem C6_id_coercion (hp : Permission → Bool) (t : Table)
    (validator : List String) (db : DB) (s s2 s3 : String) (n : Int)
    (raw : Option (List (String × Value)))
    (cu : Value → List (String × Value) → RpcOutcome Unit)
    (cd : Value → RpcOutcome Unit)
    (h1 : parseInt s = some n) (h2 : parseInt s2 = none)
    (h3 : coerceId s = coerceId s3)
    (hview : hp Permission.view = true)
    (hdel : hp Permission.delete = true) :
    coerceId s = Value.vint n ∧
    coerceId s2 = Value.vstr s2 ∧
    (asyncpg_detail hp t db s).1
      = (match findByPk db t.pk (coerceId s) with
         | none =>
           Except.error (AdminError.objectNotFound (idMsg (coerceId s)))
         | some r => Except.ok { body := Body.entity r, headers := [] }) ∧
    asyncpg_detail hp t db s = asyncpg_detail hp t db s3 ∧
    asyncpg_update hp t validator db s raw
      = asyncpg_update hp t validator db s3 raw ∧
    asyncpg_delete hp t db s = asyncpg_delete hp t db s3 ∧
    (asyncpg_delete hp t db s).2.1
      = db.filter (fun r => !(pkMatches t.pk (coerceId s) r)) ∧
    asyncpgGrpc_update hp t validator cu db s raw
      = asyncpgGrpc_update hp t validator (fun _ d => cu (coerceId s) d)
          db s raw ∧
    asyncpgGrpc_delete hp cd db s
      = asyncpgGrpc_delete hp (fun _ => cd (Value.vstr s)) db s := by
  refine ⟨?_, ?_, ?_, ?_, ?_, ?_, ?_, rfl, rfl⟩
  · simp [coerceId, h1]
  · simp [coerceId, h2]
  · cases hf : findByPk db t.pk (coerceId s) <;>
      simp [asyncpg_detail, withPerm, require, hview, hf]
  · simp [asyncpg_detail, h3]
  · simp [asyncpg_update, h3]
  · simp [asyncpg_delete, h3]
  · simp [asyncpg_delete, withPerm, require, hdel]

theorem C6_witness :
    parseInt "5" = some 5 ∧
    parseInt "abc" = none ∧
    coerceId "5" = coerceId "+5" ∧
    allowAll Permission.view = true ∧
    allowAll Permission.delete = true ∧
    coerceId "5" = Value.vint 5 :=
  ⟨rfl, rfl, rfl, rfl, rfl,
   (C6_id_coercion allowAll demoTable ["name", "blob"] [] "5" "abc" "+5" 5
     none (fun _ _ => RpcOutcome.ok ()) (fun _ => RpcOutcome.ok ())
     rfl rfl rfl rfl rfl).1⟩

theorem rowGet_cons (k : String) (v : Value) (r : Row) (key : String) :
    rowGet ((k, v) :: r) key
      = if (k == key) = true then some v else rowGet r key := by
  by_cases h : (k == key) = true <;>
    simp [rowGet, List.find?_cons, h]

theorem validated_excludes_pk {raw : Option (List (String × Value))}
    {t : Table} {data : List (String × Value)}
    (h : validate_payload raw (table_to_trafaret t t.pk true)
      = Except.ok data) :
    rowGet data t.pk = none := by
  cases raw with
  | none => simp [validate_payload] at h
  | some d =>
    simp only [validate_payload] at h
    split at h
    case isTrue hall =>
      obtain rfl : d = data := by injection h
      cases hfind : d.find? (fun kv => kv.1 == t.pk) with
      | none => simp [rowGet, hfind]
      | some kv =>
        exfalso
        have hmem := List.mem_of_find?_eq_some hfind
        have hkeyb := List.find?_some hfind
        have hkey : kv.1 = t.pk := eq_of_beq hkeyb
        have hcont := List.all_eq_true.mp hall kv hmem
        rw [hkey] at hcont
        have hmem2 : t.pk ∈ table_to_trafaret t t.pk true := by
          simpa using hcont
        simp [table_to_trafaret, List.mem_filter] at hmem2
    case isFalse => exact Except.noConfusion h

theorem rowGet_mapped_cols {cs : List Column} {pk : String}
    {data : List (String × Value)} {genPk : Value}
    (hcol : pk ∈ cs.map Column.name) (hnopk : rowGet data pk = none) :
    rowGet (cs.map (fun c => (c.name,
      match rowGet data c.name with
      | some v => v
      | none => if c.name == pk then genPk else Value.vnull))) pk
      = some genPk := by
  induction cs with
  | nil => simp at hcol
  | cons c cs ih =>
    simp only [List.map_cons]
    rw [rowGet_cons]
    by_cases hc : (c.name == pk) = true
    · have hceq : c.name = pk := eq_of_beq hc
      rw [if_pos hc, hceq, hnopk]
      simp
    · rw [if_neg hc]
      apply ih
      rcases (show pk = c.name ∨ ∃ a ∈ cs, a.name = pk by
        simpa using hcol) with h | h
      · exact absurd (beq_iff_eq.mpr h.symm) hc
      · exact List.mem_map.mpr h

theorem rowGet_insertedRow {t : Table} {data : List (String × Value)}
    {genPk : Value} (hcol : t.pk ∈ t.columns.map Column.name)
    (hnopk : rowGet data t.pk = none) :
    rowGet (insertedRow t data genPk) t.pk = some genPk :=
  rowGet_mapped_cols hcol hnopk

theorem find?_append_of_none {p : Row → Bool} {l₁ l₂ : List Row}
    (h : l₁.find? p = none) : (l₁ ++ l₂).find? p = l₂.find? p := by
  rw [List.find?_append, h, Option.none_or]

/-- C7: under the default `skip_pk` construction the create validator
excludes the primary-key column (so validated payloads carry no
primary-key field), and every create variant — PG's RETURNING clause,
asyncpg's RETURNING, and MySQL's lastrowid-then-reselect — answers with
the inserted row, which carries the server-generated primary key. -/
theorem C7_create_returns_row (hp : Permission → Bool) (t : Table)
    (db : DB) (raw : Option (List (String × Value)))
    (data : List (String × Value)) (genPk : Value)
    (hperm : hp Permission.add = true)
    (hval : validate_payload raw (table_to_trafaret t t.pk true)
      = Except.ok data)
    (hcol : t.pk ∈ t.columns.map Column.name)
    (hfresh : findByPk db t.pk genPk = none) :
    t.pk ∉ table_to_trafaret t t.pk true ∧
    rowGet data t.pk = none ∧
    rowGet (insertedRow t data genPk) t.pk = some genPk ∧
    (pg_create hp t (table_to_trafaret t t.pk true) db raw genPk).1
      = Except.ok { body := Body.entity (insertedRow t data genPk),
                    headers := [] } ∧
    (asyncpg_create hp t (table_to_trafaret t t.pk true) db raw genPk).1
      = Except.ok { body := Body.entity (insertedRow t data genPk),
                    headers := [] } ∧
    (mysql_create hp t (table_to_trafaret t t.pk true) db raw genPk).1
      = Except.ok { body := Body.entity (insertedRow t data genPk),
                    headers := [] } := by
  have hnopk : rowGet data t.pk = none := validated_excludes_pk hval
  have hrg : rowGet (insertedRow t data genPk) t.pk = some genPk :=
    rowGet_insertedRow hcol hnopk
  have hfind : findByPk (db ++ [insertedRow t data genPk]) t.pk genPk
      = some (insertedRow t data genPk) := by
    rw [findByPk, find?_append_of_none hfresh]
    exact List.find?_cons_of_pos _ (by simp [pkMatches, hrg])
  refine ⟨?_, hnopk, hrg, ?_, ?_, ?_⟩
  · intro hmem
    simp [table_to_trafaret, List.mem_filter] at hmem
  · simp [pg_create, withPerm, require, hperm, hval]
  · simp [asyncpg_create, withPerm, require, hperm, hval]
  · simp [mysql_create, withPerm, require, hperm, hval, hfind]

theorem C7_witness :
    allowAll Permission.add = true ∧
    validate_payload (some [("name", Value.vstr "Ann")])
        (table_to_trafaret demoTable demoTable.pk true)
      = Except.ok [("name", Value.vstr "Ann")] ∧
    demoTable.pk ∈ demoTable.columns.map Column.name ∧
    findByPk [] demoTable.pk (Value.vint 1) = none ∧
    (mysql_create allowAll demoTable
        (table_to_trafaret demoTable demoTable.pk true) []
        (some [("name", Value.vstr "Ann")]) (Value.vint 1)).1
      = Except.ok { body := Body.entity (insertedRow demoTable
                      [("name", Value.vstr "Ann")] (Value.vint 1)),
                    headers := [] } :=
  ⟨rfl, rfl, by decide, rfl,
   (C7_create_returns_row allowAll demoTable []
     (some [("name", Value.vstr "Ann")]) [("name", Value.vstr "Ann")]
     (Value.vint 1) rfl rfl (by decide) rfl).2.2.2.2.2⟩

/-- C3: in every CRUD handler of every variant (MySQLResource inherits
list/detail/delete from PGResource and AsyncpgGrpcResource inherits
list/detail from AsyncpgResource, so the fifteen handlers below cover
them all), the permission check is the first event of the trace, and when
the permission is denied the handler raises the authorization error with
the row set unchanged and no database or RPC event at all. -/
theorem C3_require_before_db (hp hp2 : Permission → Bool) (t : Table)
    (validator : List String) (db : DB) (q : QuerySpec) (entityId : String)
    (raw : Option (List (String × Value))) (genPk : Value)
    (cu : Value → List (String × Value) → RpcOutcome Unit)
    (cc : List (String × Value) → RpcOutcome Value)
    (cd : Value → RpcOutcome Unit)
    (hv : hp Permission.view = false) (ha : hp Permission.add = false)
    (he : hp Permission.edit = false) (hd : hp Permission.delete = false) :
    (pg_list hp t db q
      = (Except.error AdminError.authError, db,
         [Event.permCheck Permission.view]) ∧
     pg_detail hp t db entityId
      = (Except.error AdminError.authError, db,
         [Event.permCheck Permission.view]) ∧
     pg_create hp t validator db raw genPk
      = (Except.error AdminError.authError, db,
         [Event.permCheck Permission.add]) ∧
     pg_update hp t validator db entityId raw
      = (Except.error AdminError.authError, db,
         [Event.permCheck Permission.edit]) ∧
     pg_delete hp t db entityId
      = (Except.error AdminError.authError, db,
         [Event.permCheck Permission.delete]) ∧
     asyncpg_list hp t db q
      = (Except.error AdminError.authError, db,
         [Event.permCheck Permission.view]) ∧
     asyncpg_detail hp t db entityId
      = (Except.error AdminError.authError, db,
         [Event.permCheck Permission.view]) ∧
     asyncpg_create hp t validator db raw genPk
      = (Except.error AdminError.authError, db,
         [Event.permCheck Permission.add]) ∧
     asyncpg_update hp t validator db entityId raw
      = (Except.error AdminError.authError, db,
         [Event.permCheck Permission.edit]) ∧
     asyncpg_delete hp t db entityId
      = (Except.error AdminError.authError, db,
         [Event.permCheck Permission.delete]) ∧
     mysql_create hp t validator db raw genPk
      = (Except.error AdminError.authError, db,
         [Event.permCheck Permission.add]) ∧
     mysql_update hp t validator db entityId raw
      = (Except.error AdminError.authError, db,
         [Event.permCheck Permission.edit]) ∧
     asyncpgGrpc_update hp t validator cu db entityId raw
      = (Except.error AdminError.authError, db,
         [Event.permCheck Permission.edit]) ∧
     asyncpgGrpc_create hp t validator cc db raw
      = (Except.error AdminError.authError, db,
         [Event.permCheck Permission.add]) ∧
     asyncpgGrpc_delete hp cd db entityId
      = (Except.error AdminError.authError, db,
         [Event.permCheck Permission.delete])) ∧
    ((pg_list hp2 t db q).2.2.head?
        = some (Event.permCheck Permission.view) ∧
     (pg_detail hp2 t db entityId).2.2.head?
        = some (Event.permCheck Permission.view) ∧
     (pg_create hp2 t validator db raw genPk).2.2.head?
        = some (Event.permCheck Permission.add) ∧
     (pg_update hp2 t validator db entityId raw).2.2.head?
        = some (Event.permCheck Permission.edit) ∧
     (pg_delete hp2 t db entityId).2.2.head?
        = some (Event.permCheck Permission.delete) ∧
     (asyncpg_list hp2 t db q).2.2.head?
        = some (Event.permCheck Permission.view) ∧
     (asyncpg_detail hp2 t db entityId).2.2.head?
        = some (Event.permCheck Permission.view) ∧
     (asyncpg_create hp2 t validator db raw genPk).2.2.head?
        = some (Event.permCheck Permission.add) ∧
     (asyncpg_update hp2 t validator db entityId raw).2.2.head?
        = some (Event.permCheck Permission.edit) ∧
     (asyncpg_delete hp2 t db entityId).2.2.head?
        = some (Event.permCheck Permission.delete) ∧
     (mysql_create hp2 t validator db raw genPk).2.2.head?
        = some (Event.permCheck Permission.add) ∧
     (mysql_update hp2 t validator db entityId raw).2.2.head?
        = some (Event.permCheck Permission.edit) ∧
     (asyncpgGrpc_update hp2 t validator cu db entityId raw).2.2.head?
        = some (Event.permCheck Permission.edit) ∧
     (asyncpgGrpc_create hp2 t validator cc db raw).2.2.head?
        = some (Event.permCheck Permission.add) ∧
     (asyncpgGrpc_delete hp2 cd db entityId).2.2.head?
        = some (Event.permCheck Permission.delete)) := by
  refine ⟨⟨?_, ?_, ?_, ?_, ?_, ?_, ?_, ?_, ?_, ?_, ?_, ?_, ?_, ?_, ?_⟩,
          ⟨?_, ?_, ?_, ?_, ?_, ?_, ?_, ?_, ?_, ?_, ?_, ?_, ?_, ?_, ?_⟩⟩ <;>
    first
      | exact withPerm_denied hv
      | exact withPerm_denied ha
      | exact withPerm_denied he
      | exact withPerm_denied hd
      | exact withPerm_trace_head _ _ _ _

theorem C3_witness :
    denyAll Permission.view = false ∧
    denyAll Permission.add = false ∧
    denyAll Permission.edit = false ∧
    denyAll Permission.delete = false ∧
    pg_list denyAll demoTable [] demoQ
      = (Except.error AdminError.authError, [],
         [Event.permCheck Permission.view]) :=
  ⟨rfl, rfl, rfl, rfl,
   (C3_require_before_db denyAll allowAll demoTable ["name", "blob"] []
     demoQ "1" (some []) (Value.vint 1) (fun _ _ => RpcOutcome.ok ())
     (fun _ => RpcOutcome.ok (Value.vint 1)) (fun _ => RpcOutcome.ok ())
     rfl rfl rfl rfl).1.1⟩

/-- Strict name order on serialized endpoint descriptors. -/
def edLt (a b : EndpointData) : Prop := a.name < b.name

instance : IsAntisymm EndpointData edLt :=
  ⟨fun _ _ h1 h2 => absurd (lt_trans h1 h2) (lt_irrefl _)⟩

theorem sorted_edLt_of_nodup {l : List EndpointData}
    (hs : List.Sorted edLe l) (hnd : (l.map EndpointData.name).Nodup) :
    List.Sorted edLt l := by
  have hne : l.Pairwise (fun a b => a.name ≠ b.name) := by
    simpa [List.Nodup, List.pairwise_map] using hnd
  exact (hs.and hne).imp (fun h => lt_of_le_of_ne h.1 h.2)

theorem insertionSort_eq_of_perm_of_nodup {l1 l2 : List EndpointData}
    (hperm : List.Perm l1 l2) (hnd : (l1.map EndpointData.name).Nodup) :
    List.insertionSort edLe l1 = List.insertionSort edLe l2 := by
  have h1 : List.Perm (List.insertionSort edLe l1) l1 :=
    List.perm_insertionSort _ _
  have h2 : List.Perm (List.insertionSort edLe l2) l2 :=
    List.perm_insertionSort _ _
  have hp : List.Perm (List.insertionSort edLe l1)
      (List.insertionSort edLe l2) :=
    h1.trans (hperm.trans h2.symm)
  have hnd1 : ((List.insertionSort edLe l1).map EndpointData.name).Nodup :=
    (List.Perm.nodup_iff (h1.map _)).mpr hnd
  have hnd2 : ((List.insertionSort edLe l2).map EndpointData.name).Nodup := by
    refine (List.Perm.nodup_iff (h2.map _)).mpr ?_
    exact (List.Perm.nodup_iff (hperm.map _)).mp hnd
  exact List.eq_of_perm_of_sorted hp
    (sorted_edLt_of_nodup (List.sorted_insertionSort _ _) hnd1)
    (sorted_edLt_of_nodup (List.sorted_insertionSort _ _) hnd2)

theorem foldl_register (s : Schema) (es : List Endpoint) :
    List.foldl Schema.register s es
      = { title := s.title, endpoints := s.endpoints ++ es } := by
  induction es generalizing s with
  | nil => simp
  | cons e es ih => simp [Schema.register, ih]

/-- C9: `to_json` of a Schema built by any sequence of registrations
keeps the schema's title and serializes the endpoint descriptors sorted
by their name; with pairwise distinct names the serialized document does
not depend on the registration order. -/
theorem C9_to_json_sorted (title : String) (es1 es2 : List Endpoint)
    (hperm : List.Perm (es1.map endpointToData) (es2.map endpointToData))
    (hnd : ((es1.map endpointToData).map EndpointData.name).Nodup) :
    (Schema.to_json { title := title, endpoints := es1 }).title = title ∧
    List.Sorted edLe
      (Schema.to_json { title := title, endpoints := es1 }).endpoints ∧
    List.Perm
      (Schema.to_json { title := title, endpoints := es1 }).endpoints
      (es1.map endpointToData) ∧
    List.foldl Schema.register { title := title, endpoints := [] } es1
      = { title := title, endpoints := es1 } ∧
    Schema.to_json { title := title, endpoints := es1 }
      = Schema.to_json { title := title, endpoints := es2 } := by
  refine ⟨rfl, List.sorted_insertionSort _ _, List.perm_insertionSort _ _,
    by simpa using foldl_register { title := title, endpoints := [] } es1,
    ?_⟩
  simp [Schema.to_json, insertionSort_eq_of_perm_of_nodup hperm hnd]

/-- A registered endpoint named "a". -/
def epA : Endpoint :=
  { name := "a", fields := FieldsArg.star, table := demoTable }

/-- A registered endpoint named "b". -/
def epB : Endpoint :=
  { name := "b", fields := FieldsArg.star, table := demoTable }

theorem C9_witness :
    List.Perm ([epB, epA].map endpointToData)
      ([epA, epB].map endpointToData) ∧
    ((([epB, epA].map endpointToData).map EndpointData.name).Nodup) ∧
    Schema.to_json { title := "Admin", endpoints := [epB, epA] }
      = Schema.to_json { title := "Admin", endpoints := [epA, epB] } :=
  ⟨List.Perm.swap _ _ _, by decide,
   (C9_to_json_sorted "Admin" [epB, epA] [epA, epB] (List.Perm.swap _ _ _)
     (by decide)).2.2.2.2⟩
